import Mathlib

/-!
Shallow embedding of the fat32-parser crate (src/error.rs, src/fat.rs,
src/boot_sector.rs, src/dir_entry.rs, src/filesystem.rs).

Conventions of the embedding:
* Machine integers (u8, u16, u32, usize) are modelled as `Nat`; wrapping
  u32 arithmetic is written with an explicit `% 2 ^ 32` and the low-28-bit
  FAT mask `& 0x0FFFFFFF` as `% 0x10000000`.
* A byte slice is a `List Nat` (each element a byte value); reading past
  the end with `List.getD` never happens on the paths proved below without
  an explicit in-bounds check, mirroring the Rust panics which are made
  explicit through `RunRes.panic`.
* A block device is a total function `Nat → Nat → Nat` giving the byte at
  (lba, index-within-sector); `SECTOR_SIZE = 512` as in block_device.rs.
  Device reads are modelled as always succeeding; bytes are normalised
  with `% 256` since the Rust device delivers `u8`.
* Fallible operations return `Except Fat32Error` when the Rust cannot
  panic, and `RunRes` (which additionally has `panic` for Rust panics such
  as out-of-bounds slicing, and `fuelOut` for the fuel that makes loops
  structurally recursive) otherwise.
-/

/-- Error enumeration from src/error.rs. -/
inductive Fat32Error where
  | IoError
  | OutOfBounds
  | InvalidBootSector
  | NotFat32
  | InvalidCluster (cluster : Nat)
  | InvalidPath
  | NotFound
  | IsDirectory
  | IsNotDirectory
  | BufferTooSmall
deriving DecidableEq, Repr

/-- Result of running a piece of Rust code: `panic` models a Rust panic
(out-of-bounds index or slice), `fuelOut` is an artifact of embedding
unbounded loops with fuel, `err` an `Err(Fat32Error)` and `ok` an `Ok`. -/
inductive RunRes (α : Type) where
  | panic
  | fuelOut
  | err (e : Fat32Error)
  | ok (a : α)
deriving DecidableEq, Repr

/-- True exactly on the `panic` outcome. -/
def RunRes.isPanic {α : Type} : RunRes α → Bool
  | .panic => true
  | _ => false

/-- True exactly on the `ok` outcome. -/
def RunRes.isOk {α : Type} : RunRes α → Bool
  | .ok _ => true
  | _ => false

/-- FAT table entry from src/fat.rs: a raw 32-bit value. -/
structure FatEntry where
  value : Nat
deriving DecidableEq, Repr

/-- FatEntry::new from src/fat.rs. -/
def FatEntry.new (value : Nat) : FatEntry := ⟨value⟩

/-- FatEntry::is_end from src/fat.rs: `self.value >= 0x0FFFFFF8`. -/
def FatEntry.is_end (e : FatEntry) : Bool := 0x0FFFFFF8 ≤ e.value

/-- FatEntry::is_free from src/fat.rs: `self.value == 0`. -/
def FatEntry.is_free (e : FatEntry) : Bool := e.value = 0

/-- FatEntry::is_bad from src/fat.rs: `self.value == 0x0FFFFFF7`. -/
def FatEntry.is_bad (e : FatEntry) : Bool := e.value = 0x0FFFFFF7

/-- FatEntry::next_cluster from src/fat.rs: `None` when free, bad or end,
otherwise `Some(self.value & 0x0FFFFFFF)` (the mask is `% 2^28`). -/
def FatEntry.next_cluster (e : FatEntry) : Option Nat :=
  if e.is_free || e.is_bad || e.is_end then none
  else some (e.value % 0x10000000)

/-- Little-endian 16-bit read of two bytes of a byte list. -/
def le16 (bs : List Nat) (i : Nat) : Nat :=
  bs.getD i 0 + 256 * bs.getD (i + 1) 0

/-- Little-endian 32-bit read of four bytes of a byte list. -/
def le32 (bs : List Nat) (i : Nat) : Nat :=
  bs.getD i 0 + 256 * bs.getD (i + 1) 0 + 65536 * bs.getD (i + 2) 0
    + 16777216 * bs.getD (i + 3) 0

/-- BiosParameterBlock from src/boot_sector.rs (packed record). -/
structure BiosParameterBlock where
  bytes_per_sector : Nat
  sectors_per_cluster : Nat
  reserved_sector_count : Nat
  num_fats : Nat
  root_entry_count : Nat
  total_sectors_16 : Nat
  media : Nat
  fat_size_16 : Nat
  sectors_per_track : Nat
  num_heads : Nat
  hidden_sectors : Nat
  total_sectors_32 : Nat
  fat_size_32 : Nat
  ext_flags : Nat
  fs_version : Nat
  root_cluster : Nat
deriving DecidableEq, Repr

/-- BiosParameterBlock::from_sector from src/boot_sector.rs: the packed,
little-endian record overlaid at byte offset 11 of the boot sector. -/
def BiosParameterBlock.from_sector (sector : List Nat) : BiosParameterBlock :=
  { bytes_per_sector := le16 sector 11
    sectors_per_cluster := sector.getD 13 0
    reserved_sector_count := le16 sector 14
    num_fats := sector.getD 16 0
    root_entry_count := le16 sector 17
    total_sectors_16 := le16 sector 19
    media := sector.getD 21 0
    fat_size_16 := le16 sector 22
    sectors_per_track := le16 sector 24
    num_heads := le16 sector 26
    hidden_sectors := le32 sector 28
    total_sectors_32 := le32 sector 32
    fat_size_32 := le32 sector 36
    ext_flags := le16 sector 40
    fs_version := le16 sector 42
    root_cluster := le32 sector 44 }

/-- Fat32Geometry from src/boot_sector.rs. -/
structure Fat32Geometry where
  first_data_sector : Nat
  fat_start_lba : Nat
  root_cluster : Nat
  sectors_per_cluster : Nat
  bytes_per_sector : Nat
deriving DecidableEq, Repr

/-- Fat32Geometry::from_bpb from src/boot_sector.rs; the u32 sum
`reserved + fats * fat_size` wraps, hence the `% 2^32`. -/
def Fat32Geometry.from_bpb (bpb : BiosParameterBlock) : Fat32Geometry :=
  let fats := bpb.num_fats
  let reserved := bpb.reserved_sector_count
  let fat_size := if bpb.fat_size_16 ≠ 0 then bpb.fat_size_16 else bpb.fat_size_32
  { first_data_sector := (reserved + fats * fat_size) % 2 ^ 32
    fat_start_lba := reserved
    root_cluster := bpb.root_cluster
    sectors_per_cluster := bpb.sectors_per_cluster
    bytes_per_sector := bpb.bytes_per_sector }

/-- Fat32Geometry::cluster_to_lba from src/boot_sector.rs:
`first_data_sector + (cluster - 2) * sectors_per_cluster` in wrapping u32
arithmetic (the subtraction wraps for cluster < 2). -/
def Fat32Geometry.cluster_to_lba (g : Fat32Geometry) (cluster : Nat) : Nat :=
  (g.first_data_sector + (cluster + 2 ^ 32 - 2) % 2 ^ 32 * g.sectors_per_cluster) % 2 ^ 32

/-- Fat32Fs::mount from src/filesystem.rs, returning the geometry of the
mounted handle (the device reference carries no information). -/
def mount (boot_sector : List Nat) : Except Fat32Error Fat32Geometry :=
  if boot_sector.length < 512 then .error .InvalidBootSector
  else if boot_sector.getD 510 0 ≠ 0x55 ∨ boot_sector.getD 511 0 ≠ 0xAA then
    .error .InvalidBootSector
  else
    let bpb := BiosParameterBlock.from_sector boot_sector
    if bpb.fat_size_16 ≠ 0 ∨ bpb.fat_size_32 = 0 then .error .NotFat32
    else .ok (Fat32Geometry.from_bpb bpb)

/-- Byte delivered by the block device at (lba, index within sector):
devices deliver u8, hence the `% 256`. -/
def devByte (dev : Nat → Nat → Nat) (lba i : Nat) : Nat := dev lba i % 256

/-- Fat32Fs::read_fat_entry from src/filesystem.rs. The Rust reads the
FAT word out of a fixed `[u8; 512]` stack buffer; indexing it at
`entry_offset + 3 > 511` is a Rust panic, made explicit here. The final
mask `& 0x0FFFFFFF` is `% 2^28`. -/
def read_fat_entry (g : Fat32Geometry) (dev : Nat → Nat → Nat) (cluster : Nat) :
    RunRes FatEntry :=
  if cluster < 2 then .err (.InvalidCluster cluster)
  else
    let fat_offset := cluster * 4 % 2 ^ 32
    let fat_sector := (g.fat_start_lba + fat_offset / g.bytes_per_sector) % 2 ^ 32
    let entry_offset := fat_offset % g.bytes_per_sector
    if 508 < entry_offset then .panic
    else
      .ok (FatEntry.new ((devByte dev fat_sector entry_offset
        + 256 * devByte dev fat_sector (entry_offset + 1)
        + 65536 * devByte dev fat_sector (entry_offset + 2)
        + 16777216 * devByte dev fat_sector (entry_offset + 3)) % 0x10000000))

/-- Byte i of cluster `cluster` as read_cluster delivers it into a buffer:
read_sectors(cluster_to_lba cluster, sectors_per_cluster, buf) fills the
buffer with consecutive 512-byte device sectors (SECTOR_SIZE = 512 from
src/block_device.rs). -/
def cluster_byte (g : Fat32Geometry) (dev : Nat → Nat → Nat) (cluster i : Nat) : Nat :=
  devByte dev (g.cluster_to_lba cluster + i / 512) (i % 512)

/-- MAX_CLUSTERS from Fat32Fs::read_cluster_chain (src/filesystem.rs). -/
def MAX_CLUSTERS : Nat := 100000

/-- Loop body of Fat32Fs::read_cluster_chain (src/filesystem.rs) with the
callback instantiated to the collecting visitor (which always returns Ok):
the returned list records the clusters the callback was invoked on, in
order, and the second component is the outcome of the loop. The fuel
argument is `MAX_CLUSTERS - cluster_count`; the Rust check
`cluster_count >= MAX_CLUSTERS` is the fuel-zero case. -/
def read_cluster_chain_go (g : Fat32Geometry) (dev : Nat → Nat → Nat) :
    Nat → Nat → List Nat × RunRes Unit
  | 0, current => ([], .err (.InvalidCluster current))
  | fuel + 1, current =>
    if current < 2 then ([], .err (.InvalidCluster current))
    else
      match read_fat_entry g dev current with
      | .panic => ([current], .panic)
      | .fuelOut => ([current], .fuelOut)
      | .err e => ([current], .err e)
      | .ok fe =>
        if fe.is_end then ([current], .ok ())
        else
          match fe.next_cluster with
          | none => ([current], .ok ())
          | some next =>
            let rest := read_cluster_chain_go g dev fuel next
            (current :: rest.1, rest.2)

/-- Fat32Fs::read_cluster_chain from src/filesystem.rs: a 4096-byte local
buffer, BufferTooSmall when the cluster size exceeds it, then the walk
loop bounded by MAX_CLUSTERS. -/
def read_cluster_chain (g : Fat32Geometry) (dev : Nat → Nat → Nat) (start_cluster : Nat) :
    List Nat × RunRes Unit :=
  if 4096 < g.sectors_per_cluster * g.bytes_per_sector % 2 ^ 32 then
    ([], .err .BufferTooSmall)
  else read_cluster_chain_go g dev MAX_CLUSTERS start_cluster

/-- DirectoryEntryRaw from src/dir_entry.rs: the packed 32-byte record. -/
structure DirectoryEntryRaw where
  name : List Nat
  attributes : Nat
  reserved : Nat
  creation_time_tenth : Nat
  creation_time : Nat
  creation_date : Nat
  last_access_date : Nat
  first_cluster_high : Nat
  write_time : Nat
  write_date : Nat
  first_cluster_low : Nat
  file_size : Nat
deriving DecidableEq, Repr

/-- The unsafe pointer cast of src/filesystem.rs line 251: overlay a
DirectoryEntryRaw on the 32 bytes of `buf` starting at `off` (packed,
little-endian fields). -/
def DirectoryEntryRaw.overlay (buf : Nat → Nat) (off : Nat) : DirectoryEntryRaw :=
  { name := (List.range 11).map fun i => buf (off + i)
    attributes := buf (off + 11)
    reserved := buf (off + 12)
    creation_time_tenth := buf (off + 13)
    creation_time := buf (off + 14) + 256 * buf (off + 15)
    creation_date := buf (off + 16) + 256 * buf (off + 17)
    last_access_date := buf (off + 18) + 256 * buf (off + 19)
    first_cluster_high := buf (off + 20) + 256 * buf (off + 21)
    write_time := buf (off + 22) + 256 * buf (off + 23)
    write_date := buf (off + 24) + 256 * buf (off + 25)
    first_cluster_low := buf (off + 26) + 256 * buf (off + 27)
    file_size := buf (off + 28) + 256 * buf (off + 29) + 65536 * buf (off + 30)
      + 16777216 * buf (off + 31) }

/-- DirectoryEntryRaw::is_unused from src/dir_entry.rs:
`name[0] == 0x00 || name[0] == 0xE5`. -/
def DirectoryEntryRaw.is_unused (e : DirectoryEntryRaw) : Bool :=
  e.name.getD 0 0 = 0 ∨ e.name.getD 0 0 = 0xE5

/-- DirectoryEntryRaw::is_dir from src/dir_entry.rs: attribute bit 0x10. -/
def DirectoryEntryRaw.is_dir (e : DirectoryEntryRaw) : Bool :=
  e.attributes &&& 0x10 ≠ 0

/-- DirectoryEntryRaw::first_cluster from src/dir_entry.rs:
`(high << 16) | low`. -/
def DirectoryEntryRaw.first_cluster (e : DirectoryEntryRaw) : Nat :=
  e.first_cluster_high <<< 16 ||| e.first_cluster_low

/-- Modelled from the spec: `is_long_name` is absent from
src/dir_entry.rs; spec section 4.5 defines it as attribute byte
`& 0x0F == 0x0F`. -/
def DirectoryEntryRaw.is_long_name (e : DirectoryEntryRaw) : Bool :=
  e.attributes &&& 0x0F = 0x0F

/-- Modelled from the spec: `is_volume_label` is absent from
src/dir_entry.rs; spec section 4.5 defines it as the 0x08 attribute bit
set with the rest of the 0x0F mask zero, i.e. `attr & 0x0F == 0x08`. -/
def DirectoryEntryRaw.is_volume_label (e : DirectoryEntryRaw) : Bool :=
  e.attributes &&& 0x0F = 0x08

/-- DirectoryIterator state from src/filesystem.rs: the 4096-byte buffer
is modelled as a total function on byte indexes (only indexes < 4096 are
ever read, mirroring the fixed `[u8; 4096]`). -/
structure DirectoryIterator where
  cluster : Nat
  offset : Nat
  buffer : Nat → Nat
  done : Bool

/-- DirectoryIterator::new from src/filesystem.rs: slicing
`buffer[..cluster_size]` of the 4096-byte buffer panics when
cluster_size > 4096 (this happens before read_cluster can return an
error); then read_cluster loads the first cluster, rejecting
start_cluster < 2 and leaving bytes at index ≥ cluster_size zero. -/
def DirectoryIterator.new (g : Fat32Geometry) (dev : Nat → Nat → Nat)
    (start_cluster : Nat) : RunRes DirectoryIterator :=
  let cluster_size := g.sectors_per_cluster * g.bytes_per_sector % 2 ^ 32
  if 4096 < cluster_size then .panic
  else if start_cluster < 2 then .err (.InvalidCluster start_cluster)
  else
    .ok { cluster := start_cluster
          offset := 0
          buffer := fun i => if i < cluster_size then cluster_byte g dev start_cluster i else 0
          done := false }

/-- Fat32Fs::read_root_dir from src/filesystem.rs. -/
def read_root_dir (g : Fat32Geometry) (dev : Nat → Nat → Nat) : RunRes DirectoryIterator :=
  DirectoryIterator.new g dev g.root_cluster

/-- Loop body of DirectoryIterator::next_entry from src/filesystem.rs.
Each iteration of the Rust `loop` consumes one unit of fuel (the Rust
loop has no intrinsic bound). Note the Rust compares `offset` against the
literal 4096 (the buffer length), not against the cluster size. -/
def next_entry_go (g : Fat32Geometry) (dev : Nat → Nat → Nat) :
    Nat → DirectoryIterator → RunRes (Option DirectoryEntryRaw × DirectoryIterator)
  | 0, _ => .fuelOut
  | fuel + 1, st =>
    if 4096 ≤ st.offset then
      match read_fat_entry g dev st.cluster with
      | .panic => .panic
      | .fuelOut => .fuelOut
      | .err e => .err e
      | .ok fe =>
        if fe.is_end then .ok (none, { st with done := true })
        else
          match fe.next_cluster with
          | some next =>
            if 4096 < g.sectors_per_cluster * g.bytes_per_sector % 2 ^ 32 then .panic
            else if next < 2 then .err (.InvalidCluster next)
            else
              next_entry_go g dev fuel
                { cluster := next
                  offset := 0
                  buffer := fun i =>
                    if i < g.sectors_per_cluster * g.bytes_per_sector % 2 ^ 32 then
                      cluster_byte g dev next i
                    else st.buffer i
                  done := st.done }
          | none => .ok (none, { st with done := true })
    else
      if (DirectoryEntryRaw.overlay st.buffer st.offset).name.getD 0 0 = 0 then
        .ok (none, { st with offset := st.offset + 32, done := true })
      else if (DirectoryEntryRaw.overlay st.buffer st.offset).is_unused ∨
          (DirectoryEntryRaw.overlay st.buffer st.offset).attributes = 0x08 then
        next_entry_go g dev fuel { st with offset := st.offset + 32 }
      else
        .ok (some (DirectoryEntryRaw.overlay st.buffer st.offset),
          { st with offset := st.offset + 32 })

/-- DirectoryIterator::next_entry from src/filesystem.rs: returns
immediately when `done`, otherwise runs the loop. -/
def next_entry (g : Fat32Geometry) (dev : Nat → Nat → Nat) (fuel : Nat)
    (st : DirectoryIterator) : RunRes (Option DirectoryEntryRaw × DirectoryIterator) :=
  if st.done then .ok (none, st) else next_entry_go g dev fuel st

/-- Projection used to state properties of a next_entry result without
comparing iterator states (whose buffer is a function): the entry yielded,
if any. -/
def yielded : RunRes (Option DirectoryEntryRaw × DirectoryIterator) → Option DirectoryEntryRaw
  | .ok (e, _) => e
  | _ => none

/-- Client-style driver: open the root directory and return the first
yielded entry, if any. -/
def first_root_entry (g : Fat32Geometry) (dev : Nat → Nat → Nat) (fuel : Nat) :
    Option DirectoryEntryRaw :=
  match read_root_dir g dev with
  | .ok st => yielded (next_entry g dev fuel st)
  | _ => none

/-- Client-style driver: call next_entry up to n times, collecting the
yielded entries in order; stops at the first call that yields nothing
(termination, error, panic or fuel exhaustion). -/
def collect_go (g : Fat32Geometry) (dev : Nat → Nat → Nat) (fuel : Nat) :
    Nat → DirectoryIterator → List DirectoryEntryRaw
  | 0, _ => []
  | n + 1, st =>
    match next_entry g dev fuel st with
    | .ok (some e, st1) => e :: collect_go g dev fuel n st1
    | _ => []

/-- Client-style driver: open the root directory and collect up to n
yielded entries. -/
def collect_root (g : Fat32Geometry) (dev : Nat → Nat → Nat) (fuel n : Nat) :
    List DirectoryEntryRaw :=
  match read_root_dir g dev with
  | .ok st => collect_go g dev fuel n st
  | _ => []

/-- Scenario geometry for directory-iteration claims: 512-byte clusters
(one sector per cluster), FAT at LBA 1, data region at LBA 10, root
directory at cluster 100. -/
def gC1 : Fat32Geometry := ⟨10, 1, 100, 1, 512⟩

/-- Device for the long-name scenario: the FAT slot of cluster 100 (byte
offset 400 of FAT sector 1) holds end-of-chain 0x0FFFFFF8; cluster 100
(LBA 108) starts with a long-name fragment (attribute byte 0x0F, first
name byte 0x41) followed by a terminator entry. -/
def devC1 : Nat → Nat → Nat := fun lba i =>
  if lba = 1 then
    if i = 400 then 0xF8 else if i = 401 then 0xFF else if i = 402 then 0xFF
    else if i = 403 then 0x0F else 0
  else if lba = 108 then
    if i = 0 then 0x41 else if i = 11 then 0x0F else 0
  else 0

/-- The long-name fragment entry of the devC1 scenario. -/
def eC1 : DirectoryEntryRaw :=
  ⟨[0x41, 0, 0, 0, 0, 0, 0, 0, 0, 0, 0], 0x0F, 0, 0, 0, 0, 0, 0, 0, 0, 0, 0⟩

/-- The iterator state produced by read_root_dir in the devC1 scenario. -/
def stC1 : DirectoryIterator :=
  match read_root_dir gC1 devC1 with
  | .ok st => st
  | _ => ⟨0, 0, fun _ => 0, true⟩

/-- Scenario geometry for the cluster-advance claim: 512-byte clusters,
root directory chain 100 → 101 → end-of-chain. -/
def gC3 : Fat32Geometry := ⟨10, 1, 100, 1, 512⟩

/-- Device for the cluster-advance scenario: FAT slot of cluster 100 holds
101, slot of cluster 101 holds end-of-chain; cluster 100 (LBA 108) is
full with 16 valid file entries (attribute 0x20), cluster 101 (LBA 109)
holds one valid entry then a terminator. -/
def devC3 : Nat → Nat → Nat := fun lba i =>
  if lba = 1 then
    if i = 400 then 0x65 else if i = 404 then 0xF8 else if i = 405 then 0xFF
    else if i = 406 then 0xFF else if i = 407 then 0x0F else 0
  else if lba = 108 then
    if i % 32 = 0 then 0x41 else if i % 32 = 11 then 0x20 else 0
  else if lba = 109 then
    if i = 0 then 0x41 else if i = 11 then 0x20 else 0
  else 0

/-- Scenario geometry whose cluster size 16 × 512 = 8192 exceeds the
4096-byte scratch buffers. -/
def gC5 : Fat32Geometry := ⟨2050, 32, 2, 16, 512⟩

/-- The all-zero device. -/
def dev0 : Nat → Nat → Nat := fun _ _ => 0

/-- Minimal geometry for FAT-slot claims: FAT at LBA 0, 512-byte sectors;
the FAT word of cluster 2 then lives at byte offset 8 of FAT sector 0. -/
def gC7 : Fat32Geometry := ⟨0, 0, 2, 1, 512⟩

/-- Device delivering the four given bytes as the FAT slot of cluster 2
(byte offsets 8..11 of every sector), zero elsewhere. -/
def devSlot (b0 b1 b2 b3 : Nat) : Nat → Nat → Nat := fun _ i =>
  if i = 8 then b0 else if i = 9 then b1 else if i = 10 then b2
  else if i = 11 then b3 else 0

/-- Scenario geometry for the cyclic-chain claim: 512-byte clusters. -/
def gC9 : Fat32Geometry := ⟨10, 1, 2, 1, 512⟩

/-- Device realising the FAT cycle 2 → 3 → 2: the slot of cluster 2
(byte offset 8 of its FAT sector) holds 3, the slot of cluster 3 (byte
offset 12) holds 2, and every other FAT slot is free (0), so the chain
starting at cluster 2 is cyclic while the rest of the FAT is ordinary. -/
def devC9 : Nat → Nat → Nat := fun _ i =>
  if i = 8 then 3 else if i = 12 then 2 else 0

/-- Minimal 512-byte geometry for the FAT-offset bound claim. -/
def gC10 : Fat32Geometry := ⟨0, 0, 2, 1, 512⟩

/-- Boot sector of spec scenario S3: signature 0x55AA,
bytes_per_sector = 512, sectors_per_cluster = 8,
reserved_sector_count = 32, num_fats = 2, fat_size_16 = 0,
fat_size_32 = 1009, root_cluster = 2, all other bytes zero. -/
def bsS3 : List Nat :=
  (((((((((List.replicate 512 0).set 510 0x55).set 511 0xAA).set 12 2).set 13 8).set
    14 32).set 16 2).set 36 0xF1).set 37 0x03).set 44 2

/-- Geometry derived from bsS3. -/
def gS3 : Fat32Geometry := ⟨2050, 32, 2, 8, 512⟩

/-- A 512-byte boot sector with a valid signature and fat_size_32 = 1 but
sectors_per_cluster = 0, root_cluster = 0 and bytes_per_sector = 0: it
violates every geometry invariant of spec section 3. -/
def bsC4 : List Nat := (((List.replicate 512 0).set 510 0x55).set 511 0xAA).set 36 1

/-- The geometry mount derives from bsC4. -/
def gC4bad : Fat32Geometry := ⟨0, 0, 0, 0, 0⟩

/-- A 512-byte boot sector carrying only the 0x55AA signature (so
fat_size_32 = 0): the FAT16-rejection input of the src tests. -/
def bsSigOnly : List Nat := ((List.replicate 512 0).set 510 0x55).set 511 0xAA

/-- Scenario geometry of spec scenario S6: 4096-byte clusters
(8 sectors of 512 bytes), FAT at LBA 1, data region at LBA 10, root
directory at cluster 100 (LBA 794..801), second cluster 101 (LBA 802). -/
def gS6 : Fat32Geometry := ⟨10, 1, 100, 8, 512⟩

/-- Byte k of the 4096-byte cluster 100 of scenario S6: directory entries
0..63 are populated files (first name byte 0x41, attribute 0x20), entries
64..126 are deleted (first name byte 0xE5), entry 127 is a valid file. -/
def entryByteS6 (k : Nat) : Nat :=
  if k / 32 < 64 then (if k % 32 = 0 then 0x41 else if k % 32 = 11 then 0x20 else 0)
  else if k / 32 < 127 then (if k % 32 = 0 then 0xE5 else 0)
  else (if k % 32 = 0 then 0x41 else if k % 32 = 11 then 0x20 else 0)

/-- Device of spec scenario S6: the FAT slot of cluster 100 holds 101 and
the slot of cluster 101 holds end-of-chain; cluster 100 carries
entryByteS6; cluster 101 holds one valid entry then a 0x00 terminator. -/
def devS6 : Nat → Nat → Nat := fun lba i =>
  if lba = 1 then
    if i = 400 then 0x65 else if i = 404 then 0xF8 else if i = 405 then 0xFF
    else if i = 406 then 0xFF else if i = 407 then 0x0F else 0
  else if 794 ≤ lba ∧ lba ≤ 801 then entryByteS6 ((lba - 794) * 512 + i)
  else if lba = 802 then
    if i = 0 then 0x41 else if i = 11 then 0x20 else 0
  else 0

deriving instance DecidableEq for Except

/-- Helper: the byte offset of a FAT32 entry inside its 512-byte sector is
at most 508, for any cluster number, because it is a multiple of 4. -/
theorem fat_offset_le_508 (c : Nat) : c * 4 % 2 ^ 32 % 512 ≤ 508 := by omega

/-- Helper: entries yielded by the next_entry loop body always passed the
skip filter of src/filesystem.rs line 264. -/
theorem next_entry_go_yield (g : Fat32Geometry) (dev : Nat → Nat → Nat) :
    ∀ fuel st e st1, next_entry_go g dev fuel st = .ok (some e, st1) →
      e.is_unused = false ∧ e.attributes ≠ 0x08 := by
  intro fuel
  induction fuel with
  | zero =>
    intro st e st1 h
    simp [next_entry_go] at h
  | succ n ih =>
    intro st e st1 h
    rw [next_entry_go] at h
    repeat' split at h
    all_goals
      first
      | exact ih _ _ _ h
      | (simp at h; done)
      | (rename_i hcond
         simp only [RunRes.ok.injEq, Prod.mk.injEq, Option.some.injEq] at h
         obtain ⟨he, -⟩ := h
         subst he
         push_neg at hcond
         exact ⟨by simpa using hcond.1, hcond.2⟩)

/-- Helper: the chain-walk loop visits at most `fuel` clusters. -/
theorem chain_go_length (g : Fat32Geometry) (dev : Nat → Nat → Nat) :
    ∀ fuel current, (read_cluster_chain_go g dev fuel current).1.length ≤ fuel := by
  intro fuel
  induction fuel with
  | zero => intro c; simp [read_cluster_chain_go]
  | succ n ih =>
    intro c
    rw [read_cluster_chain_go]
    repeat' split
    all_goals simp
    exact ih _

/-- Helper: whenever a set S of clusters contains the current cluster and
is closed under the FAT successor, every member linking onward to a
member in the next-cluster range (exactly the situation of a chain whose
traversal never terminates, in particular any cyclic chain — S is the set
of clusters on the cycle, whatever the rest of the FAT holds), the
chain-walk loop exhausts its budget and reports InvalidCluster. -/
theorem chain_go_cyclic (g : Fat32Geometry) (dev : Nat → Nat → Nat) (S : Nat → Prop)
    (hcyc : ∀ c, S c → ∃ m, S m ∧ 2 ≤ m ∧ m < 0x0FFFFFF7 ∧
      read_fat_entry g dev c = .ok (FatEntry.new m)) :
    ∀ fuel current, S current →
      ∃ c2, (read_cluster_chain_go g dev fuel current).2 = .err (.InvalidCluster c2) := by
  intro fuel
  induction fuel with
  | zero => intro c hc; exact ⟨c, rfl⟩
  | succ n ih =>
    intro c hc
    obtain ⟨m, hSm, hm2, hm7, hfe⟩ := hcyc c hc
    have hc2 : 2 ≤ c := by
      by_contra hlt
      have herr : read_fat_entry g dev c = .err (.InvalidCluster c) := by
        unfold read_fat_entry
        rw [if_pos (by omega)]
      rw [herr] at hfe
      exact absurd hfe (by simp)
    have hend : (FatEntry.new m).is_end = false := by
      simp [FatEntry.is_end, FatEntry.new]
      omega
    have hnc : (FatEntry.new m).next_cluster = some m := by
      unfold FatEntry.next_cluster
      rw [if_neg (by
        simp [FatEntry.is_free, FatEntry.is_bad, FatEntry.is_end, FatEntry.new]
        omega)]
      simp [FatEntry.new]
      omega
    rw [read_cluster_chain_go, if_neg (by omega), hfe]
    simp only [hend, hnc, Bool.false_eq_true, if_false]
    exact ih m hSm

/-- C1 counterexample: in the devC1 scenario the first entry yielded by
next_entry on the read_root_dir iterator is a long-name fragment
(attribute byte 0x0F), so the claim that yielded entries always satisfy
`!is_long_name` is false: next_entry skips only unused entries and
entries whose attribute byte equals 0x08 exactly. -/
theorem c1_counterexample_long_name_yielded :
    first_root_entry gC1 devC1 9 = some eC1 ∧ eC1.is_long_name = true
    ∧ eC1.is_unused = false := by
  set_option maxRecDepth 10000 in refine ⟨by decide, by decide, by decide⟩

/-- C1 (amended): every entry yielded by next_entry satisfies
`!is_unused` and `attributes != 0x08`; nothing stronger is filtered, so
long-name fragments and volume labels whose attribute byte is not exactly
0x08 can be yielded. -/
theorem c1_yielded_entry_not_unused_not_volume_attr (g : Fat32Geometry)
    (dev : Nat → Nat → Nat) (fuel : Nat) (st : DirectoryIterator)
    (e : DirectoryEntryRaw) (h : yielded (next_entry g dev fuel st) = some e) :
    e.is_unused = false ∧ e.attributes ≠ 0x08 := by
  unfold next_entry at h
  split at h
  · simp [yielded] at h
  · cases hgo : next_entry_go g dev fuel st with
    | panic => rw [hgo] at h; simp [yielded] at h
    | fuelOut => rw [hgo] at h; simp [yielded] at h
    | err e2 => rw [hgo] at h; simp [yielded] at h
    | ok p =>
      obtain ⟨oe, st1⟩ := p
      rw [hgo] at h
      cases oe with
      | none => simp [yielded] at h
      | some e0 =>
        simp only [yielded, Option.some.injEq] at h
        subst h
        exact next_entry_go_yield g dev fuel st e0 st1 hgo

/-- C1 witness: the amended theorem applied to the concrete devC1 run. -/
theorem c1_witness :
    yielded (next_entry gC1 devC1 9 stC1) = some eC1
    ∧ (eC1.is_unused = false ∧ eC1.attributes ≠ 0x08) :=
  ⟨by set_option maxRecDepth 10000 in decide,
    c1_yielded_entry_not_unused_not_volume_attr gC1 devC1 9 stC1 eC1
      (by set_option maxRecDepth 10000 in decide)⟩

/-- C2 counterexample: for the FAT entry value 1 (reserved-1),
next_cluster returns Some(1), the masked cluster number, not None as the
claim states. -/
theorem c2_counterexample_reserved_one :
    (FatEntry.new 1).next_cluster = some 1
    ∧ (FatEntry.new 1).next_cluster ≠ none := by
  exact ⟨by decide, by decide⟩

/-- C2 (amended): next_cluster returns the masked cluster number if and
only if the entry is none of free, bad or end-of-chain; the reserved
value 1 is not special-cased, so for entry value 1 it returns Some(1). -/
theorem c2_next_cluster_iff_not_free_bad_end :
    (∀ v : Nat, (FatEntry.new v).next_cluster = some (v % 0x10000000) ↔
      ((FatEntry.new v).is_free = false ∧ (FatEntry.new v).is_bad = false ∧
        (FatEntry.new v).is_end = false))
    ∧ (FatEntry.new 1).next_cluster = some 1 := by
  constructor
  · intro v
    by_cases h0 : v = 0
    · simp [FatEntry.next_cluster, FatEntry.is_free, FatEntry.is_bad, FatEntry.is_end,
        FatEntry.new, h0]
    · by_cases h7 : v = 0x0FFFFFF7
      · simp [FatEntry.next_cluster, FatEntry.is_free, FatEntry.is_bad, FatEntry.is_end,
          FatEntry.new, h0, h7]
      · by_cases h8 : 0x0FFFFFF8 ≤ v
        · simp [FatEntry.next_cluster, FatEntry.is_free, FatEntry.is_bad, FatEntry.is_end,
            FatEntry.new, h0, h7, h8]
        · simp [FatEntry.next_cluster, FatEntry.is_free, FatEntry.is_bad, FatEntry.is_end,
            FatEntry.new, h0, h7, h8]
  · decide

/-- C3: the iterator advances clusters when its offset reaches the
literal 4096 (the buffer length), not the cluster size. In the devC3
scenario (cluster_size = 512, chain 100 → 101 → end, cluster 100 full
with 16 valid entries, cluster 101 holding one more valid entry) the
iteration stops after the 16 entries of cluster 100 — at offset 512 it
keeps reading stale zero buffer bytes and takes them for a terminator —
even though the FAT links cluster 100 to cluster 101 whose first entry is
valid; the claim predicts 17 entries. The spec scenario S6 itself
(cluster_size = 4096, 64 populated + 63 deleted + 1 valid entries in
cluster 100, 1 valid entry then a terminator in cluster 101) does yield
exactly 66 entries, because there 4096 coincides with the cluster size. -/
theorem c3_offset_compared_to_4096_not_cluster_size :
    (collect_root gC3 devC3 5 20).length = 16
    ∧ read_fat_entry gC3 devC3 100 = .ok (FatEntry.new 101)
    ∧ (FatEntry.new 101).next_cluster = some 101
    ∧ (DirectoryEntryRaw.overlay (fun i => cluster_byte gC3 devC3 101 i) 0).is_unused = false
    ∧ (DirectoryEntryRaw.overlay (fun i => cluster_byte gC3 devC3 101 i) 0).attributes = 0x20
    ∧ gC3.sectors_per_cluster * gC3.bytes_per_sector = 512
    ∧ (collect_root gS6 devS6 70 70).length = 66 := by
  set_option maxRecDepth 100000 in
  refine ⟨by decide, by decide, by decide, by decide, by decide, by decide, by decide⟩

/-- C4 counterexample: the boot sector bsC4 (valid signature,
fat_size_16 = 0, fat_size_32 = 1) has sectors_per_cluster = 0 and
root_cluster = 0, violating the section-3 invariants, yet mount accepts
it and returns the unvalidated geometry instead of an error. -/
theorem c4_counterexample_invalid_geometry_mounted :
    (mount bsC4).toOption = some gC4bad
    ∧ gC4bad.sectors_per_cluster = 0 ∧ gC4bad.root_cluster = 0
    ∧ ¬ 0 < gC4bad.sectors_per_cluster := by
  set_option maxRecDepth 100000 in
  refine ⟨by decide, by decide, by decide, by decide⟩

/-- C4 (amended): mount validates only the slice length, the 0x55AA
signature and the FAT-size fields; any boot sector passing those checks
is mounted, its sectors_per_cluster and root_cluster copied unvalidated
from the BPB, with no check of the section-3 geometry invariants. -/
theorem c4_mount_skips_geometry_validation (bs : List Nat) (h1 : 512 ≤ bs.length)
    (h2 : bs.getD 510 0 = 0x55) (h3 : bs.getD 511 0 = 0xAA)
    (h4 : le16 bs 22 = 0) (h5 : le32 bs 36 ≠ 0) :
    mount bs = .ok (Fat32Geometry.from_bpb (BiosParameterBlock.from_sector bs))
    ∧ (Fat32Geometry.from_bpb (BiosParameterBlock.from_sector bs)).sectors_per_cluster
        = bs.getD 13 0
    ∧ (Fat32Geometry.from_bpb (BiosParameterBlock.from_sector bs)).root_cluster
        = le32 bs 44 := by
  unfold mount
  rw [if_neg (by omega), if_neg (by push_neg; exact ⟨h2, h3⟩),
    if_neg (by simp [BiosParameterBlock.from_sector, h4, h5])]
  exact ⟨rfl, rfl, rfl⟩

/-- C4 witness: the amended theorem applied to the concrete bsC4. -/
theorem c4_witness :
    512 ≤ bsC4.length ∧ bsC4.getD 510 0 = 0x55 ∧ bsC4.getD 511 0 = 0xAA
    ∧ le16 bsC4 22 = 0 ∧ le32 bsC4 36 ≠ 0
    ∧ (mount bsC4 = .ok (Fat32Geometry.from_bpb (BiosParameterBlock.from_sector bsC4))
       ∧ (Fat32Geometry.from_bpb (BiosParameterBlock.from_sector bsC4)).sectors_per_cluster
           = bsC4.getD 13 0
       ∧ (Fat32Geometry.from_bpb (BiosParameterBlock.from_sector bsC4)).root_cluster
           = le32 bsC4 44) :=
  ⟨by set_option maxRecDepth 100000 in decide,
   by set_option maxRecDepth 100000 in decide,
   by set_option maxRecDepth 100000 in decide,
   by set_option maxRecDepth 100000 in decide,
   by set_option maxRecDepth 100000 in decide,
   c4_mount_skips_geometry_validation bsC4
     (by set_option maxRecDepth 100000 in decide)
     (by set_option maxRecDepth 100000 in decide)
     (by set_option maxRecDepth 100000 in decide)
     (by set_option maxRecDepth 100000 in decide)
     (by set_option maxRecDepth 100000 in decide)⟩

/-- C5: for any mounted geometry whose cluster size exceeds the 4096-byte
scratch buffers, read_cluster_chain returns BufferTooSmall as claimed,
but DirectoryIterator::new (hence read_root_dir) panics on the slice
`buffer[..cluster_size]` of its fixed 4096-byte buffer instead of
returning BufferTooSmall. -/
theorem c5_buffer_too_small_vs_panic (g : Fat32Geometry) (dev : Nat → Nat → Nat)
    (start : Nat)
    (h : 4096 < g.sectors_per_cluster * g.bytes_per_sector % 2 ^ 32) :
    read_cluster_chain g dev start = ([], .err .BufferTooSmall)
    ∧ (DirectoryIterator.new g dev start).isPanic = true := by
  unfold read_cluster_chain DirectoryIterator.new
  rw [if_pos h, if_pos h]
  exact ⟨rfl, rfl⟩

/-- C5 witness: the geometry gC5 has cluster size 8192 > 4096; the chain
walk errors with BufferTooSmall while the directory iterator panics. -/
theorem c5_witness :
    4096 < gC5.sectors_per_cluster * gC5.bytes_per_sector % 2 ^ 32
    ∧ (read_cluster_chain gC5 dev0 2 = ([], .err .BufferTooSmall)
       ∧ (DirectoryIterator.new gC5 dev0 2).isPanic = true) :=
  ⟨by decide, c5_buffer_too_small_vs_panic gC5 dev0 2 (by decide)⟩

/-- C6: for every geometry and cluster c ≥ 2 below 2^32, cluster_to_lba
computes first_data_sector + (c − 2) × sectors_per_cluster (as a u32);
from_bpb derives first_data_sector = reserved_sector_count + num_fats ×
effective_fat_size with effective_fat_size = fat_size_16 when nonzero
else fat_size_32; and on the concrete S3 boot sector (reserved 32,
2 FATs, fat_size_32 = 1009, 8 sectors per cluster) mount yields
first_data_sector = 2050 with cluster_to_lba 2 = 2050,
cluster_to_lba 3 = 2058 and cluster_to_lba 10 = 2114. -/
theorem c6_cluster_to_lba_formula (g : Fat32Geometry) (c : Nat)
    (h2 : 2 ≤ c) (hc : c < 2 ^ 32) :
    g.cluster_to_lba c = (g.first_data_sector + (c - 2) * g.sectors_per_cluster) % 2 ^ 32
    ∧ (∀ bpb, (Fat32Geometry.from_bpb bpb).first_data_sector =
        (bpb.reserved_sector_count + bpb.num_fats *
          (if bpb.fat_size_16 ≠ 0 then bpb.fat_size_16 else bpb.fat_size_32)) % 2 ^ 32)
    ∧ mount bsS3 = .ok gS3
    ∧ gS3.first_data_sector = 2050
    ∧ gS3.cluster_to_lba 2 = 2050 ∧ gS3.cluster_to_lba 3 = 2058
    ∧ gS3.cluster_to_lba 10 = 2114 := by
  refine ⟨?_, fun bpb => rfl,
    by set_option maxRecDepth 100000 in decide,
    by decide, by decide, by decide, by decide⟩
  unfold Fat32Geometry.cluster_to_lba
  have hsub : (c + 2 ^ 32 - 2) % 2 ^ 32 = c - 2 := by omega
  rw [hsub]

/-- C6 witness: the formula applied to the S3 geometry at cluster 10. -/
theorem c6_witness :
    2 ≤ 10 ∧ 10 < 2 ^ 32
    ∧ gS3.cluster_to_lba 10
        = (gS3.first_data_sector + (10 - 2) * gS3.sectors_per_cluster) % 2 ^ 32 :=
  ⟨by decide, by decide, (c6_cluster_to_lba_formula gS3 10 (by decide) (by decide)).1⟩

/-- C7: the FatEntry produced by read_fat_entry from an arbitrary 4-byte
FAT slot (b0, b1, b2, b3) is the little-endian word masked to its low 28
bits, so the classification is determined entirely by the masked word and
the top 4 bits are ignored (two slots agreeing on the low nibble of their
top byte give identical results); concretely the slot 05 00 00 F0 gives
next_cluster = Some 5 and the slot F8 FF FF FF gives the end-of-chain
entry 0x0FFFFFF8 with next_cluster = None. -/
theorem c7_fat_classification_masked :
    (∀ b0 b1 b2 b3 : Nat, read_fat_entry gC7 (devSlot b0 b1 b2 b3) 2 =
      .ok (FatEntry.new ((b0 % 256 + 256 * (b1 % 256) + 65536 * (b2 % 256)
        + 16777216 * (b3 % 256)) % 0x10000000)))
    ∧ (∀ b0 b1 b2 b3 c3 : Nat, b3 % 16 = c3 % 16 →
        read_fat_entry gC7 (devSlot b0 b1 b2 b3) 2 =
        read_fat_entry gC7 (devSlot b0 b1 b2 c3) 2)
    ∧ read_fat_entry gC7 (devSlot 0x05 0 0 0xF0) 2 = .ok (FatEntry.new 5)
    ∧ (FatEntry.new 5).next_cluster = some 5
    ∧ read_fat_entry gC7 (devSlot 0xF8 0xFF 0xFF 0xFF) 2 = .ok (FatEntry.new 0x0FFFFFF8)
    ∧ (FatEntry.new 0x0FFFFFF8).is_end = true
    ∧ (FatEntry.new 0x0FFFFFF8).next_cluster = none := by
  have hgen : ∀ b0 b1 b2 b3 : Nat, read_fat_entry gC7 (devSlot b0 b1 b2 b3) 2 =
      .ok (FatEntry.new ((b0 % 256 + 256 * (b1 % 256) + 65536 * (b2 % 256)
        + 16777216 * (b3 % 256)) % 0x10000000)) := by
    set_option maxRecDepth 4096 in exact fun b0 b1 b2 b3 => rfl
  refine ⟨hgen, ?_, by decide, by decide, by decide, by decide, by decide⟩
  intro b0 b1 b2 b3 c3 hb
  rw [hgen, hgen]
  congr 2
  omega

/-- C7 witness: top-nibble independence applied to the concrete slots
05 00 00 F0 and 05 00 00 00. -/
theorem c7_witness :
    (0xF0 : Nat) % 16 = 0x00 % 16
    ∧ read_fat_entry gC7 (devSlot 0x05 0 0 0xF0) 2
        = read_fat_entry gC7 (devSlot 0x05 0 0 0x00) 2 :=
  ⟨by decide, c7_fat_classification_masked.2.1 0x05 0 0 0xF0 0x00 (by decide)⟩

/-- C8: mount returns InvalidBootSector for every slice shorter than 512
bytes and for every 512-byte-or-longer slice whose bytes at offsets 510
and 511 are not 0x55, 0xAA (in particular for 512 zero bytes); for every
slice passing those checks it returns NotFat32 exactly when
fat_size_16 ≠ 0 or fat_size_32 = 0, and otherwise succeeds with a
handle. -/
theorem c8_mount_error_classification (bs : List Nat) :
    (bs.length < 512 → mount bs = .error .InvalidBootSector)
    ∧ (512 ≤ bs.length → bs.getD 510 0 ≠ 0x55 ∨ bs.getD 511 0 ≠ 0xAA →
        mount bs = .error .InvalidBootSector)
    ∧ mount (List.replicate 512 0) = .error .InvalidBootSector
    ∧ (512 ≤ bs.length → bs.getD 510 0 = 0x55 → bs.getD 511 0 = 0xAA →
        ((mount bs = .error .NotFat32 ↔
            ((BiosParameterBlock.from_sector bs).fat_size_16 ≠ 0 ∨
             (BiosParameterBlock.from_sector bs).fat_size_32 = 0))
         ∧ ((∃ g, mount bs = .ok g) ↔
            ((BiosParameterBlock.from_sector bs).fat_size_16 = 0 ∧
             (BiosParameterBlock.from_sector bs).fat_size_32 ≠ 0)))) := by
  refine ⟨?_, ?_, by set_option maxRecDepth 100000 in decide, ?_⟩
  · intro h
    unfold mount
    rw [if_pos h]
  · intro h hsig
    unfold mount
    rw [if_neg (by omega), if_pos hsig]
  · intro h h510 h511
    unfold mount
    rw [if_neg (by omega), if_neg (by push_neg; exact ⟨h510, h511⟩)]
    by_cases hf : ((BiosParameterBlock.from_sector bs).fat_size_16 ≠ 0 ∨
        (BiosParameterBlock.from_sector bs).fat_size_32 = 0)
    · rw [if_pos hf]
      refine ⟨by simp [hf], ?_⟩
      constructor
      · rintro ⟨g, hg⟩
        exact absurd hg (by simp)
      · intro hx
        exact absurd hf (by tauto)
    · rw [if_neg hf]
      push_neg at hf
      refine ⟨by simp [hf.1, hf.2], ?_⟩
      constructor
      · intro _
        exact hf
      · intro _
        exact ⟨_, rfl⟩

/-- C8 witness: the classification applied to a 100-byte slice (too
short) and to the signature-only boot sector whose fat_size_32 is zero
(the FAT16-style rejection of the src tests). -/
theorem c8_witness :
    (List.replicate 100 0).length < 512
    ∧ mount (List.replicate 100 0) = .error .InvalidBootSector
    ∧ mount bsSigOnly = .error .NotFat32 :=
  ⟨by decide,
   (c8_mount_error_classification (List.replicate 100 0)).1 (by decide),
   ((c8_mount_error_classification bsSigOnly).2.2.2
       (by set_option maxRecDepth 100000 in decide)
       (by set_option maxRecDepth 100000 in decide)
       (by set_option maxRecDepth 100000 in decide)).1.mpr
     (Or.inr (by set_option maxRecDepth 100000 in decide))⟩

/-- C9: on any FAT contents whatsoever — any geometry, any device, any
start cluster, with no hypothesis — the chain walk invokes its visitor on
at most MAX_CLUSTERS = 100000 clusters (first conjunct, fully
universal); and for every cyclic chain — described by any set S of
clusters containing the start and closed under the FAT successor with
every member linking onward, the rest of the FAT arbitrary (free, bad or
end-of-chain slots elsewhere do not matter) — the walk from the start
stops with InvalidCluster once the step budget is exhausted, provided
only that the cluster size fits the 4096-byte scratch buffer so the walk
starts at all. -/
theorem c9_chain_bounded_and_cyclic_detected (g : Fat32Geometry)
    (dev : Nat → Nat → Nat) (start : Nat) (S : Nat → Prop)
    (hcs : g.sectors_per_cluster * g.bytes_per_sector % 2 ^ 32 ≤ 4096)
    (hstart : S start)
    (hcyc : ∀ c, S c → ∃ m, S m ∧ 2 ≤ m ∧ m < 0x0FFFFFF7 ∧
      read_fat_entry g dev c = .ok (FatEntry.new m)) :
    (∀ g2 : Fat32Geometry, ∀ dev2 : Nat → Nat → Nat, ∀ s2 : Nat,
        (read_cluster_chain g2 dev2 s2).1.length ≤ MAX_CLUSTERS)
    ∧ ∃ c2, (read_cluster_chain g dev start).2 = .err (.InvalidCluster c2) := by
  constructor
  · intro g2 dev2 s2
    unfold read_cluster_chain
    split
    · simp
    · exact chain_go_length g2 dev2 MAX_CLUSTERS s2
  · unfold read_cluster_chain
    rw [if_neg (by omega)]
    exact chain_go_cyclic g dev S hcyc MAX_CLUSTERS start hstart

/-- C9 witness: the FAT cycle 2 → 3 → 2 of devC9, with every other slot
free, instantiated with S = {2, 3}: the walk from cluster 2 is bounded
and reports InvalidCluster. -/
theorem c9_witness :
    gC9.sectors_per_cluster * gC9.bytes_per_sector % 2 ^ 32 ≤ 4096
    ∧ ((2 : Nat) = 2 ∨ (2 : Nat) = 3)
    ∧ (∀ c : Nat, c = 2 ∨ c = 3 → ∃ m, (m = 2 ∨ m = 3) ∧ 2 ≤ m ∧ m < 0x0FFFFFF7 ∧
        read_fat_entry gC9 devC9 c = .ok (FatEntry.new m))
    ∧ ((∀ g2 : Fat32Geometry, ∀ dev2 : Nat → Nat → Nat, ∀ s2 : Nat,
          (read_cluster_chain g2 dev2 s2).1.length ≤ MAX_CLUSTERS)
       ∧ ∃ c2, (read_cluster_chain gC9 devC9 2).2 = .err (.InvalidCluster c2)) := by
  have hcyc : ∀ c : Nat, c = 2 ∨ c = 3 → ∃ m, (m = 2 ∨ m = 3) ∧ 2 ≤ m ∧ m < 0x0FFFFFF7 ∧
      read_fat_entry gC9 devC9 c = .ok (FatEntry.new m) := by
    intro c hc
    rcases hc with rfl | rfl
    · exact ⟨3, Or.inr rfl, by decide, by decide, by decide⟩
    · exact ⟨2, Or.inl rfl, by decide, by decide, by decide⟩
  exact ⟨by decide, Or.inl rfl, hcyc,
    c9_chain_bounded_and_cyclic_detected gC9 devC9 2 (fun c => c = 2 ∨ c = 3)
      (by decide) (Or.inl rfl) hcyc⟩

/-- C10: when the mounted geometry has bytes_per_sector = 512, the byte
offset cluster × 4 mod bytes_per_sector (computed in wrapping u32
arithmetic) of every FAT entry for a cluster ≥ 2 is at most 508, so the
four accesses entry_offset .. entry_offset+3 stay inside the fixed
512-byte sector buffer and read_fat_entry cannot panic; this is a
precondition on bytes_per_sector only, since mount also accepts the boot
sector bsC4 whose bytes_per_sector is not 512. -/
theorem c10_fat_offset_in_bounds (g : Fat32Geometry) (cluster : Nat)
    (hbps : g.bytes_per_sector = 512) (h2 : 2 ≤ cluster) :
    cluster * 4 % 2 ^ 32 % g.bytes_per_sector ≤ 508
    ∧ cluster * 4 % 2 ^ 32 % g.bytes_per_sector + 3 < 512
    ∧ (∀ dev, (read_fat_entry g dev cluster).isPanic = false)
    ∧ (mount bsC4).toOption = some gC4bad ∧ gC4bad.bytes_per_sector ≠ 512 := by
  rw [hbps]
  refine ⟨fat_offset_le_508 cluster, by have := fat_offset_le_508 cluster; omega, ?_,
    by set_option maxRecDepth 100000 in decide,
    by decide⟩
  intro dev
  unfold read_fat_entry
  rw [if_neg (by omega), hbps]
  rw [if_neg (by have := fat_offset_le_508 cluster; omega)]
  rfl

/-- C10 witness: the bound applied to the 512-byte geometry gC10 at
cluster 7. -/
theorem c10_witness :
    gC10.bytes_per_sector = 512 ∧ 2 ≤ 7
    ∧ 7 * 4 % 2 ^ 32 % gC10.bytes_per_sector ≤ 508 :=
  ⟨rfl, by decide, (c10_fat_offset_in_bounds gC10 7 rfl (by decide)).1⟩
